import Mathlib

/-!
Verification development for the smart-db multi-database connection manager.

The repository has two parallel connection managers, `MultiDatabaseManager`
(backed by `pg` pools, modelled here in namespace `MDM`) and
`SequelizeDbManager` (backed by Sequelize instances, namespace `SDM`), plus
the older single-pool `DatabaseConnection` (namespace `DC`) and the
`database-management` route layer.  Network I/O performed by the underlying
engines (pool connect, probe queries, close) is modelled by explicit outcome
parameters of type `Except JsError Unit`; timestamps are `Nat` values passed
in as a `now` parameter; the `process.env` lookups are an `EnvConfig` record.
Resource-lifecycle behaviour (pool creation, close, handle acquire/release)
is recorded in an explicit event trace so that leak- and release-properties
can be stated.
-/

/-- Does the character list start with the given pattern?  Executable helper
used to model JavaScript `String.prototype.includes`. -/
def charsStartWith : List Char → List Char → Bool
  | _, [] => true
  | [], _ :: _ => false
  | c :: cs, d :: ds => decide (c = d) && charsStartWith cs ds

/-- Does the character list contain the pattern as a contiguous run? -/
def charsContain (l sub : List Char) : Bool :=
  match l with
  | [] => sub.isEmpty
  | _ :: rest => charsStartWith l sub || charsContain rest sub

/-- Model of JavaScript `s.includes(sub)`. -/
def strIncludes (s sub : String) : Bool :=
  charsContain s.data sub.data

/-- Association list with string keys, modelling a JavaScript `Map`:
`aset` updates in place (keeping insertion order) or appends, `adel`
removes the entry, `akeys`/`avalues` follow insertion order exactly as
`Map.prototype.keys()`/`values()` do. -/
abbrev SMap (α : Type) := List (String × α)

/-- JavaScript `Map.prototype.set`. -/
def aset {α : Type} (m : SMap α) (k : String) (v : α) : SMap α :=
  match m with
  | [] => [(k, v)]
  | (k2, v2) :: rest => if k2 = k then (k2, v) :: rest else (k2, v2) :: aset rest k v

/-- JavaScript `Map.prototype.get`. -/
def aget {α : Type} (m : SMap α) (k : String) : Option α :=
  match m with
  | [] => none
  | (k2, v) :: rest => if k2 = k then some v else aget rest k

/-- JavaScript `Map.prototype.delete` (drops the entry for `k`). -/
def adel {α : Type} (m : SMap α) (k : String) : SMap α :=
  match m with
  | [] => []
  | (k2, v) :: rest => if k2 = k then rest else (k2, v) :: adel rest k

/-- `Array.from(map.keys())`. -/
def akeys {α : Type} (m : SMap α) : List String :=
  m.map Prod.fst

/-- `Array.from(map.values())`. -/
def avalues {α : Type} (m : SMap α) : List α :=
  m.map Prod.snd

/-- The `type` field of `DatabaseCredentials` (src/backend/src/types/database.ts). -/
inductive DbType where
  | postgresql
  | mysql
  | sqlite
deriving DecidableEq

/-- `credentials.type.toUpperCase()`. -/
def DbType.upper : DbType → String
  | .postgresql => "POSTGRESQL"
  | .mysql => "MYSQL"
  | .sqlite => "SQLITE"

/-- `DatabaseCredentials` from src/backend/src/types/database.ts; optional
TypeScript fields become `Option`s. -/
structure DatabaseCredentials where
  id : String
  name : String
  type : DbType
  host : Option String
  port : Option Nat
  database : String
  username : Option String
  password : Option String
  isLocal : Option Bool
deriving DecidableEq

/-- `ConnectionResult` from src/backend/src/types/database.ts. -/
structure ConnectionResult where
  success : Bool
  message : String
  connectionId : Option String
deriving DecidableEq

/-- `DatabaseSession` from src/backend/src/types/database.ts.  The two
`Date` fields are modelled as natural-number timestamps. -/
structure DatabaseSession where
  id : String
  credentials : DatabaseCredentials
  createdAt : Nat
  lastUsed : Nat
deriving DecidableEq

/-- The reserved local connection id (`LOCAL_DB_ID` in types/database.ts). -/
def LOCAL_DB_ID : String := "pg-db"

/-- A JavaScript `Error` as observed by the managers: Sequelize errors carry
a `name`, `pg` errors carry a `code`, and every error has a `message`. -/
structure JsError where
  name : Option String
  code : Option String
  message : String
deriving DecidableEq

/-- The `process.env` variables read by both managers
(`DB_HOST`/`DB_PORT`/`DB_NAME`/`DB_USER`/`DB_PASSWORD`). -/
structure EnvConfig where
  dbHost : Option String
  dbPort : Option Nat
  dbName : Option String
  dbUser : Option String
  dbPassword : Option String

/-- The local credentials literal built by `initializeLocalDatabase` in both
managers (identical in both sources). -/
def localCredentials (env : EnvConfig) : DatabaseCredentials :=
  { id := LOCAL_DB_ID
    name := "pg-db (Local)"
    type := .postgresql
    host := some (env.dbHost.getD "localhost")
    port := some (env.dbPort.getD 5432)
    database := env.dbName.getD "smartdb"
    username := some (env.dbUser.getD "postgres")
    password := some (env.dbPassword.getD "password")
    isLocal := some true }

/-- Resource-lifecycle events recorded while an operation runs.  Tags number
the pools created within a single call (tag 0 is the throwaway test pool,
tag 1 the long-lived pool created by `addConnection`). -/
inductive PEvent where
  | createdPool (t : Nat)
  | closedPool (t : Nat)
  | registeredPool (t : Nat)
  | acquiredClient
  | releasedClient
  | ranSelectPath
  | ranGenericPath
deriving DecidableEq

/-- Number of occurrences of an event in a trace. -/
def countEv (tr : List PEvent) (e : PEvent) : Nat :=
  tr.countP (fun x => decide (x = e))

/-- Membership of an event in a trace, as a boolean. -/
def trContains (tr : List PEvent) (e : PEvent) : Bool :=
  tr.any (fun x => decide (x = e))

/-- A trace leaks a pool when some pool was created but neither closed nor
registered in the manager's connection map. -/
def leakedB (tr : List PEvent) : Bool :=
  tr.any (fun e =>
    match e with
    | .createdPool t => !(trContains tr (.closedPool t)) && !(trContains tr (.registeredPool t))
    | _ => false)

/-- Did the modelled asynchronous step succeed? -/
def isOkB (r : Except JsError Unit) : Bool :=
  match r with
  | .ok _ => true
  | .error _ => false

/-- The configuration object passed to `new Pool({...})` (pg). -/
structure PoolConfig where
  host : Option String
  port : Option Nat
  database : String
  user : Option String
  password : Option String
  max : Nat
  idleTimeoutMillis : Option Nat
  connectionTimeoutMillis : Nat
deriving DecidableEq

/-- Class-level state of `MultiDatabaseManager`: the `connections` and
`sessions` maps and the `localPool` marker. -/
structure MDMState where
  connections : SMap PoolConfig
  sessions : SMap DatabaseSession
  localPool : Option PoolConfig
deriving DecidableEq

namespace MDM

/-- The long-lived pool configuration (`max: 20`) built by
`initializeLocalDatabase` and `addConnection`. -/
def longPoolConfig (c : DatabaseCredentials) : PoolConfig :=
  { host := c.host, port := c.port, database := c.database, user := c.username
    password := c.password, max := 20, idleTimeoutMillis := some 30000
    connectionTimeoutMillis := 2000 }

/-- The throwaway pool configuration (`max: 1`, 5s timeout) built by
`testConnection`. -/
def testPoolConfig (c : DatabaseCredentials) : PoolConfig :=
  { host := c.host, port := c.port, database := c.database, user := c.username
    password := c.password, max := 1, idleTimeoutMillis := none
    connectionTimeoutMillis := 5000 }

/-- `MultiDatabaseManager.getErrorMessage`: map known pg error codes to
human-readable messages, falling back to the raw message (`error.message ||
"Unknown connection error occurred."`). -/
def getErrorMessage (e : JsError) : String :=
  if e.code = some "28P01" then
    "Authentication failed. Please check your username and password."
  else if e.code = some "3D000" then
    "Database not found. Please check the database name."
  else if e.code = some "ENOTFOUND" then
    "Host not found. Please check the host address."
  else if e.code = some "ECONNREFUSED" then
    "Connection refused. Please check the host and port."
  else if e.code = some "ECONNRESET" then
    "Connection reset. The database server may be unavailable."
  else if e.code = some "ETIMEDOUT" then
    "Connection timeout. Please check your network connection."
  else if e.message = "" then
    "Unknown connection error occurred."
  else
    e.message

/-- `MultiDatabaseManager.initializeLocalDatabase`: returns immediately when
`localPool` is set, otherwise builds the local credentials from the
environment, creates the long-lived pool and inserts both entries. -/
def initializeLocalDatabase (st : MDMState) (env : EnvConfig) (now : Nat) : MDMState :=
  if st.localPool.isSome then st
  else
    let c := localCredentials env
    let pool := longPoolConfig c
    { connections := aset st.connections LOCAL_DB_ID pool
      sessions := aset st.sessions LOCAL_DB_ID ⟨LOCAL_DB_ID, c, now, now⟩
      localPool := some pool }

/-- `MultiDatabaseManager.testConnection`.  `connectRes` is the outcome of
`testPool.connect()`, `probeRes` of `client.query("SELECT 1")`.  The pool is
created at `tag` and `testPool.end()` always runs in the `finally` block
(its own failure is swallowed by the inner catch). -/
def testConnection (creds : DatabaseCredentials) (connectRes : Except JsError Unit)
    (probeRes : Except JsError Unit) (tag : Nat) : ConnectionResult × List PEvent :=
  match connectRes with
  | .error e =>
      (⟨false, getErrorMessage e, none⟩, [.createdPool tag, .closedPool tag])
  | .ok _ =>
      match probeRes with
      | .error e =>
          (⟨false, getErrorMessage e, none⟩,
           [.createdPool tag, .acquiredClient, .closedPool tag])
      | .ok _ =>
          (⟨true, "Successfully connected to " ++ creds.database, some creds.id⟩,
           [.createdPool tag, .acquiredClient, .releasedClient, .closedPool tag])

/-- `MultiDatabaseManager.addConnection`: test first, return the failure
verbatim if the test fails; otherwise create the long-lived pool and insert
both the connection and session entry. -/
def addConnection (st : MDMState) (creds : DatabaseCredentials)
    (connectRes : Except JsError Unit) (probeRes : Except JsError Unit) (now : Nat) :
    ConnectionResult × MDMState × List PEvent :=
  let t := testConnection creds connectRes probeRes 0
  if t.1.success then
    let pool := longPoolConfig creds
    (⟨true, "Connected to " ++ creds.name, some creds.id⟩,
     { st with connections := aset st.connections creds.id pool
               sessions := aset st.sessions creds.id ⟨creds.id, creds, now, now⟩ },
     t.2 ++ [.createdPool 1, .registeredPool 1])
  else
    (t.1, st, t.2)

/-- The not-found message thrown by `MultiDatabaseManager.getClient`. -/
def notFoundMessage (st : MDMState) (connectionId : String) : String :=
  "Database connection \x27" ++ connectionId ++
    "\x27 not found. Available connections: " ++
    String.intercalate ", " (akeys st.connections)

/-- `MultiDatabaseManager.getClient`: look up the pool (throwing the
not-found message with the list of known ids if absent), acquire a handle
(`connectRes`), and update the session's `lastUsed` timestamp. -/
def getClient (st : MDMState) (connectionId : String) (now : Nat)
    (connectRes : Except JsError Unit) :
    Except JsError Unit × MDMState × List PEvent :=
  match aget st.connections connectionId with
  | none => (.error ⟨none, none, notFoundMessage st connectionId⟩, st, [])
  | some _ =>
      match connectRes with
      | .error e =>
          (.error ⟨none, none,
            "Failed to connect to database \x27" ++ connectionId ++ "\x27: " ++ e.message⟩,
           st, [])
      | .ok _ =>
          let sessions2 :=
            match aget st.sessions connectionId with
            | some s => aset st.sessions connectionId { s with lastUsed := now }
            | none => st.sessions
          (.ok (), { st with sessions := sessions2 }, [.acquiredClient])

/-- `MultiDatabaseManager.query`: acquire a client via `getClient`, run the
statement (`execRes`), and release the client in the `finally` block on both
the success and the error path; the execution error propagates unchanged. -/
def query {ρ : Type} (st : MDMState) (connectionId : String) (now : Nat)
    (connectRes : Except JsError Unit) (execRes : Except JsError ρ) :
    Except JsError ρ × MDMState × List PEvent :=
  match getClient st connectionId now connectRes with
  | (.error e, st2, tr) => (.error e, st2, tr)
  | (.ok _, st2, tr) =>
      match execRes with
      | .ok r => (.ok r, st2, tr ++ [.releasedClient])
      | .error e => (.error e, st2, tr ++ [.releasedClient])

/-- `MultiDatabaseManager.getAvailableDatabases`. -/
def getAvailableDatabases (st : MDMState) : List DatabaseSession :=
  avalues st.sessions

/-- `MultiDatabaseManager.removeConnection`: throws for the local id; for
other ids returns `false` when no pool is registered, deletes both entries
and returns `true` when `pool.end()` (`closeOk`) succeeds, and returns
`false` leaving both entries in place when the close throws. -/
def removeConnection (st : MDMState) (connectionId : String) (closeOk : Bool) :
    Except String Bool × MDMState :=
  if connectionId = LOCAL_DB_ID then
    (.error "Cannot remove local database connection", st)
  else
    match aget st.connections connectionId with
    | some _ =>
        if closeOk then
          (.ok true,
           { st with connections := adel st.connections connectionId
                     sessions := adel st.sessions connectionId })
        else
          (.ok false, st)
    | none => (.ok false, st)

/-- `MultiDatabaseManager.closeAllConnections`: every pool's `end()` is
awaited with its failure caught and logged per connection (`closeOks` is
therefore irrelevant to the outcome), then both maps are cleared and the
`localPool` marker reset unconditionally. -/
def closeAllConnections (st : MDMState) (closeOks : String → Bool) : MDMState :=
  let _ := fun id => closeOks id
  let _ := st
  { connections := [], sessions := [], localPool := none }

end MDM

/-- Configuration of a `new Sequelize({...})` instance as built by
`SequelizeDbManager.createSequelizeInstance`. -/
structure SequelizeConfig where
  dialect : String
  host : Option String
  port : Option Nat
  database : Option String
  username : Option String
  password : Option String
  storage : Option String
  multipleStatements : Bool
  maxPool : Nat
deriving DecidableEq

/-- The `SequelizeConnection` record stored in the manager's map. -/
structure SequelizeConnection where
  config : SequelizeConfig
  credentials : DatabaseCredentials
deriving DecidableEq

/-- Class-level state of `SequelizeDbManager`. -/
structure SDMState where
  connections : SMap SequelizeConnection
  sessions : SMap DatabaseSession
  localConnection : Option SequelizeConnection
deriving DecidableEq

/-- A result row: ordered field-name/value pairs, as a raw Sequelize row. -/
abbrev Row := List (String × String)

/-- The `QueryResult` interface of sequelizeDbManager.ts (the `fields` member
is never produced by `query`, so it is omitted). -/
structure SDMQueryResult where
  rows : List Row
  columns : List String
  rowCount : Nat
deriving DecidableEq

/-- `rows.length > 0 ? Object.keys(rows[0]) : []`. -/
def rowColumns (rows : List Row) : List String :=
  match rows with
  | [] => []
  | r :: _ => r.map Prod.fst

namespace SDM

/-- `SequelizeDbManager.createSequelizeInstance`: dialect-specific Sequelize
configuration; every enum value of `type` is covered, so construction is
total (`pool.max` is 20 in `baseConfig`). -/
def createSequelizeInstance (c : DatabaseCredentials) : SequelizeConfig :=
  match c.type with
  | .postgresql =>
      ⟨"postgres", c.host, c.port, some c.database, c.username, c.password, none, false, 20⟩
  | .mysql =>
      ⟨"mysql", c.host, c.port, some c.database, c.username, c.password, none, true, 20⟩
  | .sqlite =>
      ⟨"sqlite", none, none, none, none, none, some c.database, false, 20⟩

/-- `SequelizeDbManager.getErrorMessage`: map known Sequelize error names to
messages; for `SequelizeDatabaseError` inspect the message text; otherwise
fall back to `error?.message || "Unknown database error occurred"`. -/
def getErrorMessage (e : JsError) : String :=
  if e.name = some "SequelizeConnectionRefusedError" then
    "Connection refused. Please check if the database server is running and accessible."
  else if e.name = some "SequelizeHostNotFoundError" then
    "Host not found. Please check the hostname/IP address."
  else if e.name = some "SequelizeConnectionTimedOutError" then
    "Connection timed out. Please check your network settings."
  else if e.name = some "SequelizeAccessDeniedError" then
    "Authentication failed. Please check your username and password."
  else if e.name = some "SequelizeDatabaseError" then
    if strIncludes e.message "does not exist" then
      "Database does not exist. Please check the database name."
    else if strIncludes e.message "role" && strIncludes e.message "does not exist" then
      "User/role does not exist. Please check the username."
    else if e.message = "" then "Unknown database error occurred" else e.message
  else if e.message = "" then "Unknown database error occurred" else e.message

/-- `SequelizeDbManager.initializeLocalDatabase`: returns immediately when
`localConnection` is set; otherwise builds the postgres Sequelize instance
for the local credentials and inserts both entries. -/
def initializeLocalDatabase (st : SDMState) (env : EnvConfig) (now : Nat) : SDMState :=
  if st.localConnection.isSome then st
  else
    let c := localCredentials env
    let conn : SequelizeConnection := ⟨createSequelizeInstance c, c⟩
    { connections := aset st.connections LOCAL_DB_ID conn
      sessions := aset st.sessions LOCAL_DB_ID ⟨LOCAL_DB_ID, c, now, now⟩
      localConnection := some conn }

/-- `SequelizeDbManager.testConnection`.  `authRes` is the outcome of
`testSequelize.authenticate()`, `closeRes` of `testSequelize.close()` in the
`finally` block; a close failure is not caught here, so it replaces the
return value and the whole call rejects. -/
def testConnection (creds : DatabaseCredentials) (authRes : Except JsError Unit)
    (closeRes : Except JsError Unit) (tag : Nat) :
    Except JsError ConnectionResult × List PEvent :=
  let events : List PEvent := [.createdPool tag, .closedPool tag]
  match closeRes with
  | .error ce => (.error ce, events)
  | .ok _ =>
      match authRes with
      | .ok _ =>
          (.ok ⟨true,
            "Successfully connected to " ++ creds.type.upper ++ " database: " ++ creds.database,
            some creds.id⟩, events)
      | .error e => (.ok ⟨false, getErrorMessage e, none⟩, events)

/-- `SequelizeDbManager.addConnection`: test first and return the failure
verbatim; on success create a fresh Sequelize instance, authenticate it a
second time (`auth2Res`), and only then insert both entries.  When the
second authenticate rejects, the outer catch returns a failure result but
the freshly created instance is never closed. -/
def addConnection (st : SDMState) (creds : DatabaseCredentials)
    (authRes : Except JsError Unit) (closeRes : Except JsError Unit)
    (auth2Res : Except JsError Unit) (now : Nat) :
    ConnectionResult × SDMState × List PEvent :=
  match testConnection creds authRes closeRes 0 with
  | (.error ce, tr) => (⟨false, getErrorMessage ce, none⟩, st, tr)
  | (.ok t, tr) =>
      if t.success then
        let conn : SequelizeConnection := ⟨createSequelizeInstance creds, creds⟩
        match auth2Res with
        | .error e =>
            (⟨false, getErrorMessage e, none⟩, st, tr ++ [.createdPool 1])
        | .ok _ =>
            (⟨true, "Connected to " ++ creds.name, some creds.id⟩,
             { st with connections := aset st.connections creds.id conn
                       sessions := aset st.sessions creds.id ⟨creds.id, creds, now, now⟩ },
             tr ++ [.createdPool 1, .registeredPool 1])
      else
        (t, st, tr)

/-- `SequelizeDbManager.query`: resolve the connection (throwing a message
that names only the requested id if absent), update `lastUsed`, attempt the
`QueryTypes.SELECT` path (`selectRes`), and on any failure of that path
retry on the generic path (`genericRes`, whose payload is
`[results, metadata]` with `metadata?.affectedRows` as an `Option Nat`);
only a second failure propagates, wrapped as "Query execution failed". -/
def query (st : SDMState) (sql : String) (databaseId : String) (now : Nat)
    (selectRes : Except JsError (List Row))
    (genericRes : Except JsError (List Row × Option Nat)) :
    Except JsError SDMQueryResult × SDMState × List PEvent :=
  let _ := sql
  match aget st.connections databaseId with
  | none => (.error ⟨none, none, "Database connection not found: " ++ databaseId⟩, st, [])
  | some _ =>
      let sessions2 :=
        match aget st.sessions databaseId with
        | some s => aset st.sessions databaseId { s with lastUsed := now }
        | none => st.sessions
      let st2 : SDMState := { st with sessions := sessions2 }
      match selectRes with
      | .ok rows =>
          (.ok ⟨rows, rowColumns rows, rows.length⟩, st2, [.ranSelectPath])
      | .error _ =>
          match genericRes with
          | .ok (results, affected) =>
              let rc :=
                match affected with
                | some n => if n = 0 then results.length else n
                | none => results.length
              (.ok ⟨results, rowColumns results, rc⟩, st2, [.ranSelectPath, .ranGenericPath])
          | .error e2 =>
              (.error ⟨none, none, "Query execution failed: " ++ e2.message⟩, st2,
               [.ranSelectPath, .ranGenericPath])

/-- `SequelizeDbManager.getAvailableDatabases`. -/
def getAvailableDatabases (st : SDMState) : List DatabaseSession :=
  avalues st.sessions

/-- `SequelizeDbManager.removeConnection`: no guard for the local id; returns
`false` when the id is unknown; closes the Sequelize instance (`closeOk`)
and deletes both entries on success; the catch block turns a close failure
into `false` with both entries left in place. -/
def removeConnection (st : SDMState) (databaseId : String) (closeOk : Bool) :
    Bool × SDMState :=
  match aget st.connections databaseId with
  | none => (false, st)
  | some _ =>
      if closeOk then
        (true,
         { st with connections := adel st.connections databaseId
                   sessions := adel st.sessions databaseId })
      else
        (false, st)

/-- Loop body of `SequelizeDbManager.closeAllConnections`. -/
def closeAllLoop (st : SDMState) (ids : List String) (closeOks : String → Bool) : SDMState :=
  match ids with
  | [] => st
  | id :: rest => closeAllLoop (removeConnection st id (closeOks id)).2 rest closeOks

/-- `SequelizeDbManager.closeAllConnections`: call `removeConnection` for
every currently registered id (each failure caught and logged); the
`localConnection` marker is never reset. -/
def closeAllConnections (st : SDMState) (closeOks : String → Bool) : SDMState :=
  closeAllLoop st (akeys st.connections) closeOks

end SDM

/-- State of the legacy single-pool `DatabaseConnection`
(src/backend/src/db/dbConnection.ts). -/
structure DCState where
  pool : Option PoolConfig
deriving DecidableEq

namespace DC

/-- `DatabaseConnection.initialize` (named `initializePool` here): idempotent
construction of the fixed pool from the environment. -/
def initializePool (st : DCState) (env : EnvConfig) : DCState :=
  if st.pool.isSome then st
  else
    ⟨some { host := some (env.dbHost.getD "localhost")
            port := some (env.dbPort.getD 5432)
            database := env.dbName.getD "smartdb"
            user := some (env.dbUser.getD "postgres")
            password := some (env.dbPassword.getD "password")
            max := 20
            idleTimeoutMillis := some 30000
            connectionTimeoutMillis := 2000 }⟩

/-- `DatabaseConnection.getClient`. -/
def getClient (st : DCState) (connectRes : Except JsError Unit) :
    Except JsError Unit × List PEvent :=
  match st.pool with
  | none => (.error ⟨none, none, "Database not initialized. Call initialize() first."⟩, [])
  | some _ =>
      match connectRes with
      | .error e => (.error ⟨none, none, "Failed to connect to database: " ++ e.message⟩, [])
      | .ok _ => (.ok (), [.acquiredClient])

/-- `DatabaseConnection.query`: acquire, execute, and release in the
`finally` block on both paths. -/
def query {ρ : Type} (st : DCState) (connectRes : Except JsError Unit)
    (execRes : Except JsError ρ) : Except JsError ρ × List PEvent :=
  match getClient st connectRes with
  | (.error e, tr) => (.error e, tr)
  | (.ok _, tr) =>
      match execRes with
      | .ok r => (.ok r, tr ++ [.releasedClient])
      | .error e => (.error e, tr ++ [.releasedClient])

end DC

/-- The serializable per-database view produced by the `GET /databases`
route handler in src/backend/src/routes/database-management.ts: exactly the
fields `id`, `name`, `type`, `host`, `port`, `database`, `isLocal`,
`lastUsed`, and nothing else. -/
structure DatabaseListing where
  id : String
  name : String
  type : DbType
  host : Option String
  port : Option Nat
  database : String
  isLocal : Option Bool
  lastUsed : Nat
deriving DecidableEq

/-- The mapping applied to one session by the `GET /databases` handler. -/
def toListing (db : DatabaseSession) : DatabaseListing :=
  { id := db.id
    name := db.credentials.name
    type := db.credentials.type
    host := db.credentials.host
    port := db.credentials.port
    database := db.credentials.database
    isLocal := db.credentials.isLocal
    lastUsed := db.lastUsed }

/-- `databases.map((db) => ({...}))` in the `GET /databases` handler. -/
def listDatabasesRoute (sessions : List DatabaseSession) : List DatabaseListing :=
  sessions.map toListing

/-- Two sessions that agree on every observable field, with no constraint on
the credentials' `username` and `password`. -/
def sameExceptSecret (a b : DatabaseSession) : Prop :=
  a.id = b.id ∧ a.credentials.id = b.credentials.id ∧
  a.credentials.name = b.credentials.name ∧ a.credentials.type = b.credentials.type ∧
  a.credentials.host = b.credentials.host ∧ a.credentials.port = b.credentials.port ∧
  a.credentials.database = b.credentials.database ∧
  a.credentials.isLocal = b.credentials.isLocal ∧
  a.createdAt = b.createdAt ∧ a.lastUsed = b.lastUsed

/-- One registry-mutating operation, with the outcomes of the underlying
engine calls attached (`connectRes`/`probeRes` drive `MultiDatabaseManager`,
`connectRes`/`closeRes`/`auth2Res` drive `SequelizeDbManager`). -/
inductive ManagerOp where
  | initLocal (env : EnvConfig) (now : Nat)
  | add (creds : DatabaseCredentials) (connectRes probeRes closeRes auth2Res : Except JsError Unit)
      (now : Nat)
  | remove (id : String) (closeOk : Bool)

/-- Effect of one operation on the `MultiDatabaseManager` state. -/
def MDM.step (st : MDMState) : ManagerOp → MDMState
  | .initLocal env now => MDM.initializeLocalDatabase st env now
  | .add c cr pr _ _ now => (MDM.addConnection st c cr pr now).2.1
  | .remove id ok => (MDM.removeConnection st id ok).2

/-- A sequence of operations run against the initially empty
`MultiDatabaseManager` registry. -/
def MDM.run (ops : List ManagerOp) : MDMState :=
  ops.foldl MDM.step ⟨[], [], none⟩

/-- Effect of one operation on the `SequelizeDbManager` state. -/
def SDM.step (st : SDMState) : ManagerOp → SDMState
  | .initLocal env now => SDM.initializeLocalDatabase st env now
  | .add c cr _ cl a2 now => (SDM.addConnection st c cr cl a2 now).2.1
  | .remove id ok => (SDM.removeConnection st id ok).2

/-- A sequence of operations run against the initially empty
`SequelizeDbManager` registry. -/
def SDM.run (ops : List ManagerOp) : SDMState :=
  ops.foldl SDM.step ⟨[], [], none⟩

/-- An environment with no `DB_*` variables set (all defaults apply). -/
def emptyEnv : EnvConfig := ⟨none, none, none, none, none⟩

/-- `MultiDatabaseManager` state right after `initializeLocalDatabase`. -/
def mdmStateLocal : MDMState :=
  MDM.initializeLocalDatabase ⟨[], [], none⟩ emptyEnv 0

/-- `SequelizeDbManager` state right after `initializeLocalDatabase`. -/
def sdmStateLocal : SDMState :=
  SDM.initializeLocalDatabase ⟨[], [], none⟩ emptyEnv 0

/-- `DatabaseConnection` state right after `initialize`. -/
def dcStateInit : DCState :=
  DC.initializePool ⟨none⟩ emptyEnv

/-- A genuine SQL error as Sequelize reports one: a `SequelizeDatabaseError`
whose message is the engine's syntax complaint. -/
def synErr : JsError :=
  ⟨some "SequelizeDatabaseError", none, "syntax error at or near SELEC"⟩

/-- Sample non-local credentials used in concrete scenarios. -/
def testCreds : DatabaseCredentials :=
  { id := "test-db", name := "Test DB", type := .postgresql
    host := some "localhost", port := some 5432, database := "testdb"
    username := some "u", password := some "p", isLocal := none }

deriving instance DecidableEq for Except

/-- Two concrete sessions for the same target that differ only in the stored
username and password. -/
def sessA : DatabaseSession := ⟨"test-db", testCreds, 0, 0⟩

/-- Companion to `sessA` with different secrets. -/
def sessB : DatabaseSession :=
  ⟨"test-db", { testCreds with password := some "hunter2", username := some "admin" }, 0, 0⟩

theorem strDataAppend (s t : String) : (s ++ t).data = s.data ++ t.data := by
  cases s
  cases t
  rfl

theorem charsStartWith_append (l r : List Char) : charsStartWith (l ++ r) l = true := by
  induction l with
  | nil => simp [charsStartWith]
  | cons c cs ih => simp [charsStartWith, ih]

theorem charsStartWith_self (l : List Char) : charsStartWith l l = true := by
  have h := charsStartWith_append l []
  simpa using h

theorem charsContain_of_startWith (l sub : List Char) (h : charsStartWith l sub = true) :
    charsContain l sub = true := by
  cases l with
  | nil =>
      cases sub with
      | nil => rfl
      | cons d ds => simp [charsStartWith] at h
  | cons c cs => simp [charsContain, h]

theorem charsContain_append_left (pre l sub : List Char) (h : charsContain l sub = true) :
    charsContain (pre ++ l) sub = true := by
  induction pre with
  | nil => simpa using h
  | cons c cs ih =>
      simp only [List.cons_append, charsContain, Bool.or_eq_true]
      exact Or.inr ih

theorem strIncludes_append_right (a b : String) : strIncludes (a ++ b) b = true := by
  unfold strIncludes
  rw [strDataAppend]
  exact charsContain_append_left _ _ _
    (charsContain_of_startWith _ _ (charsStartWith_self _))

theorem akeys_aset_congr {α β : Type} (k : String) (v1 : α) (v2 : β) :
    ∀ (m1 : SMap α) (m2 : SMap β), akeys m1 = akeys m2 →
      akeys (aset m1 k v1) = akeys (aset m2 k v2) := by
  intro m1
  induction m1 with
  | nil =>
      intro m2 h
      cases m2 with
      | nil => rfl
      | cons q l2 => exact absurd h (by simp [akeys])
  | cons p l ih =>
      intro m2 h
      obtain ⟨a, b⟩ := p
      cases m2 with
      | nil => exact absurd h (by simp [akeys])
      | cons q l2 =>
          obtain ⟨a2, b2⟩ := q
          simp only [akeys, List.map_cons] at h
          obtain ⟨hk, ht⟩ := List.cons.inj h
          subst hk
          by_cases hak : a = k
          · simp [aset, hak, akeys, ht]
          · simp only [aset, hak, if_false, akeys, List.map_cons]
            exact congrArg (a :: ·) (ih l2 ht)

theorem akeys_adel_congr {α β : Type} (k : String) :
    ∀ (m1 : SMap α) (m2 : SMap β), akeys m1 = akeys m2 →
      akeys (adel m1 k) = akeys (adel m2 k) := by
  intro m1
  induction m1 with
  | nil =>
      intro m2 h
      cases m2 with
      | nil => rfl
      | cons q l2 => exact absurd h (by simp [akeys])
  | cons p l ih =>
      intro m2 h
      obtain ⟨a, b⟩ := p
      cases m2 with
      | nil => exact absurd h (by simp [akeys])
      | cons q l2 =>
          obtain ⟨a2, b2⟩ := q
          simp only [akeys, List.map_cons] at h
          obtain ⟨hk, ht⟩ := List.cons.inj h
          subst hk
          by_cases hak : a = k
          · simpa [adel, hak, akeys] using ht
          · simp only [adel, hak, if_false, akeys, List.map_cons]
            exact congrArg (a :: ·) (ih l2 ht)

theorem mdm_step_parity (st : MDMState) (op : ManagerOp)
    (h : akeys st.sessions = akeys st.connections) :
    akeys (MDM.step st op).sessions = akeys (MDM.step st op).connections := by
  cases op with
  | initLocal env now =>
      show akeys (MDM.initializeLocalDatabase st env now).sessions =
        akeys (MDM.initializeLocalDatabase st env now).connections
      unfold MDM.initializeLocalDatabase
      by_cases hl : st.localPool.isSome
      · simp [hl, h]
      · simp only [hl, if_false]
        exact akeys_aset_congr LOCAL_DB_ID _ _ st.sessions st.connections h
  | add c cr pr cl a2 now =>
      show akeys (MDM.addConnection st c cr pr now).2.1.sessions =
        akeys (MDM.addConnection st c cr pr now).2.1.connections
      unfold MDM.addConnection
      by_cases hs : (MDM.testConnection c cr pr 0).1.success
      · simp only [hs, if_true]
        exact akeys_aset_congr c.id _ _ st.sessions st.connections h
      · simp [hs, h]
  | remove id ok =>
      show akeys (MDM.removeConnection st id ok).2.sessions =
        akeys (MDM.removeConnection st id ok).2.connections
      unfold MDM.removeConnection
      by_cases hid : id = LOCAL_DB_ID
      · simp [hid, h]
      · simp only [hid, if_false]
        cases hkg : aget st.connections id with
        | none => simpa using h
        | some p =>
            by_cases hok : ok
            · simp only [hkg, hok, if_true]
              exact akeys_adel_congr id st.sessions st.connections h
            · simp [hkg, hok, h]

theorem mdm_run_parity (ops : List ManagerOp) :
    akeys (MDM.run ops).sessions = akeys (MDM.run ops).connections := by
  have h : ∀ st : MDMState, akeys st.sessions = akeys st.connections →
      akeys (ops.foldl MDM.step st).sessions = akeys (ops.foldl MDM.step st).connections := by
    induction ops with
    | nil => intro st h; exact h
    | cons op rest ih =>
        intro st h
        exact ih _ (mdm_step_parity st op h)
  exact h ⟨[], [], none⟩ rfl

theorem sdm_step_parity (st : SDMState) (op : ManagerOp)
    (h : akeys st.sessions = akeys st.connections) :
    akeys (SDM.step st op).sessions = akeys (SDM.step st op).connections := by
  cases op with
  | initLocal env now =>
      show akeys (SDM.initializeLocalDatabase st env now).sessions =
        akeys (SDM.initializeLocalDatabase st env now).connections
      unfold SDM.initializeLocalDatabase
      by_cases hl : st.localConnection.isSome
      · simp [hl, h]
      · simp only [hl, if_false]
        exact akeys_aset_congr LOCAL_DB_ID _ _ st.sessions st.connections h
  | add c cr pr cl a2 now =>
      show akeys (SDM.addConnection st c cr cl a2 now).2.1.sessions =
        akeys (SDM.addConnection st c cr cl a2 now).2.1.connections
      unfold SDM.addConnection
      cases htc : SDM.testConnection c cr cl 0 with
      | mk res tr =>
          cases res with
          | error ce => simp [h]
          | ok t =>
              by_cases hs : t.success
              · simp only [hs, if_true]
                cases a2 with
                | error e => simp [h]
                | ok u =>
                    simp only []
                    exact akeys_aset_congr c.id _ _ st.sessions st.connections h
              · simp [hs, h]
  | remove id ok =>
      show akeys (SDM.removeConnection st id ok).2.sessions =
        akeys (SDM.removeConnection st id ok).2.connections
      unfold SDM.removeConnection
      cases hkg : aget st.connections id with
      | none => simpa using h
      | some p =>
          by_cases hok : ok
          · simp only [hkg, hok, if_true]
            exact akeys_adel_congr id st.sessions st.connections h
          · simp [hkg, hok, h]

theorem sdm_run_parity (ops : List ManagerOp) :
    akeys (SDM.run ops).sessions = akeys (SDM.run ops).connections := by
  have h : ∀ st : SDMState, akeys st.sessions = akeys st.connections →
      akeys (ops.foldl SDM.step st).sessions = akeys (ops.foldl SDM.step st).connections := by
    induction ops with
    | nil => intro st h; exact h
    | cons op rest ih =>
        intro st h
        exact ih _ (sdm_step_parity st op h)
  exact h ⟨[], [], none⟩ rfl

/-- Claim C1 (amended to `MultiDatabaseManager`): for every prior registry
state, `MultiDatabaseManager.removeConnection(LOCAL_DB_ID)` fails with the
protected-resource error "Cannot remove local database connection" and
leaves the state (both maps and the local marker) unchanged, whatever the
outcome of the pool close would have been.  (`SequelizeDbManager` has no
such guard; see the counterexample.) -/
theorem mdm_removeConnection_local_protected (st : MDMState) (closeOk : Bool) :
    MDM.removeConnection st LOCAL_DB_ID closeOk =
      (.error "Cannot remove local database connection", st) := by
  unfold MDM.removeConnection
  simp

/-- Counterexample to claim C1 as stated: `SequelizeDbManager.removeConnection`
(one of the two removeConnection implementations the claim covers) removes
the reserved local connection: starting from the state produced by
`initializeLocalDatabase`, it returns `true` and deletes both the session
and connection entries instead of failing. -/
theorem sdm_removeConnection_local_not_protected :
    (SDM.removeConnection sdmStateLocal LOCAL_DB_ID true).1 = true ∧
    (SDM.removeConnection sdmStateLocal LOCAL_DB_ID true).2.sessions = [] ∧
    (SDM.removeConnection sdmStateLocal LOCAL_DB_ID true).2.connections = [] := by
  exact ⟨by decide, by decide, by decide⟩

/-- Claim C2: in `MultiDatabaseManager.query` and `DatabaseConnection.query`,
once `getClient` succeeds the handle is released exactly once on both the
success path and the error path, and an execution error propagates to the
caller unchanged. -/
theorem query_release_paired_on_both_paths {ρ : Type} (st : MDMState) (ds : DCState)
    (id : String) (now : Nat) (e : JsError) (r : ρ)
    (hpool : (aget st.connections id).isSome = true)
    (hdc : ds.pool.isSome = true) :
    (MDM.query st id now (.ok ()) (.error e : Except JsError ρ)).1 = .error e ∧
    countEv (MDM.query st id now (.ok ()) (.error e : Except JsError ρ)).2.2 .acquiredClient = 1 ∧
    countEv (MDM.query st id now (.ok ()) (.error e : Except JsError ρ)).2.2 .releasedClient = 1 ∧
    (MDM.query st id now (.ok ()) (.ok r : Except JsError ρ)).1 = .ok r ∧
    countEv (MDM.query st id now (.ok ()) (.ok r : Except JsError ρ)).2.2 .acquiredClient = 1 ∧
    countEv (MDM.query st id now (.ok ()) (.ok r : Except JsError ρ)).2.2 .releasedClient = 1 ∧
    (DC.query ds (.ok ()) (.error e : Except JsError ρ)).1 = .error e ∧
    countEv (DC.query ds (.ok ()) (.error e : Except JsError ρ)).2 .acquiredClient = 1 ∧
    countEv (DC.query ds (.ok ()) (.error e : Except JsError ρ)).2 .releasedClient = 1 ∧
    (DC.query ds (.ok ()) (.ok r : Except JsError ρ)).1 = .ok r ∧
    countEv (DC.query ds (.ok ()) (.ok r : Except JsError ρ)).2 .acquiredClient = 1 ∧
    countEv (DC.query ds (.ok ()) (.ok r : Except JsError ρ)).2 .releasedClient = 1 := by
  obtain ⟨p, hp⟩ : ∃ p, aget st.connections id = some p := by
    cases hx : aget st.connections id with
    | none => rw [hx] at hpool; simp at hpool
    | some p => exact ⟨p, rfl⟩
  obtain ⟨q, hq⟩ : ∃ q, ds.pool = some q := by
    cases hx : ds.pool with
    | none => rw [hx] at hdc; simp at hdc
    | some q => exact ⟨q, rfl⟩
  refine ⟨?_, ?_, ?_, ?_, ?_, ?_, ?_, ?_, ?_, ?_, ?_, ?_⟩ <;>
    simp [MDM.query, MDM.getClient, DC.query, DC.getClient, hp, hq, countEv]

/-- Witness for claim C2 at a concrete input: the registered local id on
the initialized managers, with a failed statement execution. -/
theorem query_release_paired_witness :
    (aget mdmStateLocal.connections LOCAL_DB_ID).isSome = true ∧
    dcStateInit.pool.isSome = true ∧
    ((MDM.query mdmStateLocal LOCAL_DB_ID 1 (.ok ()) (.error synErr : Except JsError Nat)).1 =
        .error synErr ∧
      countEv (MDM.query mdmStateLocal LOCAL_DB_ID 1 (.ok ())
        (.error synErr : Except JsError Nat)).2.2 .acquiredClient = 1 ∧
      countEv (MDM.query mdmStateLocal LOCAL_DB_ID 1 (.ok ())
        (.error synErr : Except JsError Nat)).2.2 .releasedClient = 1 ∧
      (MDM.query mdmStateLocal LOCAL_DB_ID 1 (.ok ()) (.ok 42 : Except JsError Nat)).1 = .ok 42 ∧
      countEv (MDM.query mdmStateLocal LOCAL_DB_ID 1 (.ok ())
        (.ok 42 : Except JsError Nat)).2.2 .acquiredClient = 1 ∧
      countEv (MDM.query mdmStateLocal LOCAL_DB_ID 1 (.ok ())
        (.ok 42 : Except JsError Nat)).2.2 .releasedClient = 1 ∧
      (DC.query dcStateInit (.ok ()) (.error synErr : Except JsError Nat)).1 = .error synErr ∧
      countEv (DC.query dcStateInit (.ok ())
        (.error synErr : Except JsError Nat)).2 .acquiredClient = 1 ∧
      countEv (DC.query dcStateInit (.ok ())
        (.error synErr : Except JsError Nat)).2 .releasedClient = 1 ∧
      (DC.query dcStateInit (.ok ()) (.ok 42 : Except JsError Nat)).1 = .ok 42 ∧
      countEv (DC.query dcStateInit (.ok ())
        (.ok 42 : Except JsError Nat)).2 .acquiredClient = 1 ∧
      countEv (DC.query dcStateInit (.ok ())
        (.ok 42 : Except JsError Nat)).2 .releasedClient = 1) :=
  ⟨by decide, by decide,
   query_release_paired_on_both_paths mdmStateLocal dcStateInit LOCAL_DB_ID 1 synErr 42
     (by decide) (by decide)⟩

/-- Claim C3 (amended): in every call to either manager's `testConnection`
the throwaway test pool is created once and its close/end invoked exactly
once, whatever the probe and close outcomes; `MultiDatabaseManager`'s test
and add paths never leak a pool; but `SequelizeDbManager.addConnection`
leaks the freshly created long-lived instance (created, never closed, never
registered) exactly when the initial test succeeds and the follow-up
`authenticate()` rejects — in which case a failure `ConnectionResult` is
returned with the pool left open. -/
theorem test_add_pool_close_discipline (creds : DatabaseCredentials)
    (cr pr cl a2 : Except JsError Unit) (st : MDMState) (ss : SDMState) (now : Nat) :
    countEv (MDM.testConnection creds cr pr 0).2 (.createdPool 0) = 1 ∧
    countEv (MDM.testConnection creds cr pr 0).2 (.closedPool 0) = 1 ∧
    leakedB (MDM.testConnection creds cr pr 0).2 = false ∧
    leakedB (MDM.addConnection st creds cr pr now).2.2 = false ∧
    countEv (SDM.testConnection creds cr cl 0).2 (.createdPool 0) = 1 ∧
    countEv (SDM.testConnection creds cr cl 0).2 (.closedPool 0) = 1 ∧
    leakedB (SDM.testConnection creds cr cl 0).2 = false ∧
    leakedB (SDM.addConnection ss creds cr cl a2 now).2.2 =
      (isOkB cr && isOkB cl && !(isOkB a2)) := by
  cases cr <;> cases pr <;> cases cl <;> cases a2 <;>
    exact ⟨rfl, rfl, rfl, rfl, rfl, rfl, rfl, rfl⟩

/-- Counterexample to claim C3 as stated: `SequelizeDbManager.addConnection`
returns a failure `ConnectionResult` (second `authenticate()` rejected with
a connection-refused error) while the trace shows a pool that was created
but neither closed nor registered — a leaked pool on the add path. -/
theorem sdm_addConnection_leaks_on_second_auth_failure :
    (SDM.addConnection ⟨[], [], none⟩ testCreds (.ok ()) (.ok ())
        (.error ⟨some "SequelizeConnectionRefusedError", none, "connect ECONNREFUSED"⟩) 0).1.success
      = false ∧
    leakedB (SDM.addConnection ⟨[], [], none⟩ testCreds (.ok ()) (.ok ())
        (.error ⟨some "SequelizeConnectionRefusedError", none, "connect ECONNREFUSED"⟩) 0).2.2
      = true ∧
    countEv (SDM.addConnection ⟨[], [], none⟩ testCreds (.ok ()) (.ok ())
        (.error ⟨some "SequelizeConnectionRefusedError", none, "connect ECONNREFUSED"⟩) 0).2.2
        (.createdPool 1) = 1 ∧
    countEv (SDM.addConnection ⟨[], [], none⟩ testCreds (.ok ()) (.ok ())
        (.error ⟨some "SequelizeConnectionRefusedError", none, "connect ECONNREFUSED"⟩) 0).2.2
        (.closedPool 1) = 0 := by
  exact ⟨by decide, by decide, by decide, by decide⟩

/-- Claim C4: in both managers, `addConnection` mutates no state unless the
initial `testConnection` succeeds, and on a failing test it returns the
test's failure result verbatim; when entries are inserted, the session and
the pool entry are inserted together (with `SequelizeDbManager` also
requiring its second `authenticate()` to succeed before inserting). -/
theorem addConnection_failure_atomicity (st : MDMState) (ss : SDMState)
    (creds : DatabaseCredentials) (cr pr cl a2 : Except JsError Unit)
    (e : JsError) (now : Nat) :
    (MDM.addConnection st creds cr pr now).2.1 =
      (if (MDM.testConnection creds cr pr 0).1.success then
        { st with connections := aset st.connections creds.id (MDM.longPoolConfig creds)
                  sessions := aset st.sessions creds.id ⟨creds.id, creds, now, now⟩ }
      else st) ∧
    (MDM.addConnection st creds cr pr now).1 =
      (if (MDM.testConnection creds cr pr 0).1.success then
        ⟨true, "Connected to " ++ creds.name, some creds.id⟩
      else (MDM.testConnection creds cr pr 0).1) ∧
    (SDM.addConnection ss creds cr cl a2 now).2.1 =
      (if isOkB cr && isOkB cl && isOkB a2 then
        { ss with
            connections :=
              aset ss.connections creds.id ⟨SDM.createSequelizeInstance creds, creds⟩
            sessions := aset ss.sessions creds.id ⟨creds.id, creds, now, now⟩ }
      else ss) ∧
    (SDM.addConnection ss creds (.error e) (.ok ()) a2 now).1 =
      ⟨false, SDM.getErrorMessage e, none⟩ ∧
    (SDM.testConnection creds (.error e) (.ok ()) 0).1 =
      .ok ⟨false, SDM.getErrorMessage e, none⟩ := by
  cases cr <;> cases pr <;> cases cl <;> cases a2 <;>
    exact ⟨rfl, rfl, rfl, rfl, rfl⟩

/-- Claim C5: for every finite sequence of `initializeLocalDatabase`,
`addConnection` and `removeConnection` operations run from the empty
registry, with arbitrary engine outcomes attached to each call, the set of
keys of the sessions map equals the set of keys of the connections map at
every quiescent point, in both managers. -/
theorem registry_key_parity (ops : List ManagerOp) (k : String) :
    (k ∈ akeys (MDM.run ops).sessions ↔ k ∈ akeys (MDM.run ops).connections) ∧
    (k ∈ akeys (SDM.run ops).sessions ↔ k ∈ akeys (SDM.run ops).connections) := by
  rw [mdm_run_parity ops, sdm_run_parity ops]
  exact ⟨Iff.rfl, Iff.rfl⟩

/-- Claim C6: for every non-local id, both managers' `removeConnection`
returns `false` without error when no pool is registered; deletes both
entries and returns `true` when the pool is present and its close succeeds;
and leaves both entries in place, returning `false`, when the close throws
— the session is never deleted while its pool remains unclosed. -/
theorem removeConnection_nonlocal_behaviour (st : MDMState) (ss : SDMState)
    (id : String) (closeOk : Bool) (h : id ≠ LOCAL_DB_ID) :
    MDM.removeConnection st id closeOk =
      (match aget st.connections id with
       | none => (.ok false, st)
       | some _ =>
           if closeOk then
             (.ok true, { st with connections := adel st.connections id
                                  sessions := adel st.sessions id })
           else (.ok false, st)) ∧
    SDM.removeConnection ss id closeOk =
      (match aget ss.connections id with
       | none => (false, ss)
       | some _ =>
           if closeOk then
             (true, { ss with connections := adel ss.connections id
                              sessions := adel ss.sessions id })
           else (false, ss)) := by
  constructor
  · unfold MDM.removeConnection
    rw [if_neg h]
    cases aget st.connections id <;> rfl
  · rfl

/-- Witness for claim C6 at a concrete input: removing the unregistered
non-local id "test-db" from both initialized managers. -/
theorem removeConnection_nonlocal_witness :
    "test-db" ≠ LOCAL_DB_ID ∧
    (MDM.removeConnection mdmStateLocal "test-db" true =
      (match aget mdmStateLocal.connections "test-db" with
       | none => (.ok false, mdmStateLocal)
       | some _ =>
           if true then
             (.ok true,
              { mdmStateLocal with
                  connections := adel mdmStateLocal.connections "test-db"
                  sessions := adel mdmStateLocal.sessions "test-db" })
           else (.ok false, mdmStateLocal)) ∧
     SDM.removeConnection sdmStateLocal "test-db" true =
      (match aget sdmStateLocal.connections "test-db" with
       | none => (false, sdmStateLocal)
       | some _ =>
           if true then
             (true,
              { sdmStateLocal with
                  connections := adel sdmStateLocal.connections "test-db"
                  sessions := adel sdmStateLocal.sessions "test-db" })
           else (false, sdmStateLocal))) :=
  ⟨by decide,
   removeConnection_nonlocal_behaviour mdmStateLocal sdmStateLocal "test-db" true (by decide)⟩

/-- Claim C7 (amended to `MultiDatabaseManager`): after
`MultiDatabaseManager.closeAllConnections`, whatever the per-pool close
outcomes (their failures are caught and logged per connection), both maps
are empty and the local-pool marker is reset, so a subsequent
`initializeLocalDatabase` re-creates the local connection.
(`SequelizeDbManager.closeAllConnections` keeps entries whose close failed
and never resets its marker; see the counterexample.) -/
theorem mdm_closeAllConnections_clears_registry (st : MDMState)
    (closeOks : String → Bool) (env : EnvConfig) (now : Nat) :
    (MDM.closeAllConnections st closeOks).connections = [] ∧
    (MDM.closeAllConnections st closeOks).sessions = [] ∧
    (MDM.closeAllConnections st closeOks).localPool = none ∧
    akeys (MDM.initializeLocalDatabase (MDM.closeAllConnections st closeOks) env now).sessions
      = [LOCAL_DB_ID] ∧
    akeys (MDM.initializeLocalDatabase (MDM.closeAllConnections st closeOks) env now).connections
      = [LOCAL_DB_ID] := by
  exact ⟨rfl, rfl, rfl, rfl, rfl⟩

/-- Counterexample to claim C7 as stated, on `SequelizeDbManager`: after
`closeAllConnections` with every close succeeding the maps are empty, but
the `localConnection` marker is still set, so the subsequent
`initializeLocalDatabase` returns immediately and the local connection is
not re-created (sessions stay empty); and when a close fails, the entry is
not removed at all, so shutdown leaves a non-empty registry. -/
theorem sdm_closeAllConnections_does_not_reset_marker :
    (SDM.closeAllConnections sdmStateLocal (fun _ => true)).sessions = [] ∧
    (SDM.closeAllConnections sdmStateLocal (fun _ => true)).localConnection.isSome = true ∧
    (SDM.initializeLocalDatabase
        (SDM.closeAllConnections sdmStateLocal (fun _ => true)) emptyEnv 5).sessions = [] ∧
    akeys (SDM.closeAllConnections sdmStateLocal (fun _ => false)).sessions = [LOCAL_DB_ID] ∧
    akeys (SDM.closeAllConnections sdmStateLocal (fun _ => false)).connections = [LOCAL_DB_ID] := by
  exact ⟨by decide, by decide, by decide, by decide, by decide⟩

/-- Claim C8, evaluated at the failing input: in `SequelizeDbManager.query`
the fallback to the generic execution path is triggered by any failure of
the `QueryTypes.SELECT` path — here a genuine SQL syntax error
(`SequelizeDatabaseError`, "syntax error at or near SELEC") — contradicting
the requirement that only engine-API-shape mismatches trigger the fallback.
The generic path runs, its result replaces the genuine error, and when the
retry also fails only the second error is propagated. -/
theorem sdm_query_retries_genuine_sql_error :
    trContains (SDM.query sdmStateLocal "SELEC 1" LOCAL_DB_ID 1
        (.error synErr) (.ok ([], some 0))).2.2 .ranGenericPath = true ∧
    (SDM.query sdmStateLocal "SELEC 1" LOCAL_DB_ID 1
        (.error synErr) (.ok ([], some 0))).1 = .ok ⟨[], [], 0⟩ ∧
    (SDM.query sdmStateLocal "SELEC 1" LOCAL_DB_ID 1
        (.error synErr) (.error ⟨some "SequelizeDatabaseError", none, "m2"⟩)).1 =
      .error ⟨none, none, "Query execution failed: m2"⟩ := by
  exact ⟨by decide, by decide, by decide⟩

/-- Claim C9 (amended): for an unregistered id,
`MultiDatabaseManager.getClient` fails with a message containing both the
requested id and the joined literal list of all currently registered
connection ids, while `SequelizeDbManager.query` fails with a message that
contains the requested id only (it does not include the list of registered
ids; see the counterexample). -/
theorem notfound_error_message_content (st : MDMState) (ss : SDMState) (id : String)
    (now : Nat) (connectRes : Except JsError Unit)
    (selectRes : Except JsError (List Row)) (genericRes : Except JsError (List Row × Option Nat))
    (h1 : aget st.connections id = none) (h2 : aget ss.connections id = none) :
    (MDM.getClient st id now connectRes).1 =
      .error ⟨none, none, MDM.notFoundMessage st id⟩ ∧
    strIncludes (MDM.notFoundMessage st id) id = true ∧
    strIncludes (MDM.notFoundMessage st id)
      (String.intercalate ", " (akeys st.connections)) = true ∧
    (SDM.query ss "SELECT 1" id now selectRes genericRes).1 =
      .error ⟨none, none, "Database connection not found: " ++ id⟩ ∧
    strIncludes ("Database connection not found: " ++ id) id = true := by
  refine ⟨?_, ?_, ?_, ?_, ?_⟩
  · unfold MDM.getClient
    rw [h1]
  · unfold strIncludes MDM.notFoundMessage
    rw [strDataAppend, strDataAppend, strDataAppend, List.append_assoc, List.append_assoc]
    exact charsContain_append_left _ _ _
      (charsContain_of_startWith _ _ (charsStartWith_append _ _))
  · unfold strIncludes MDM.notFoundMessage
    rw [strDataAppend]
    exact charsContain_append_left _ _ _
      (charsContain_of_startWith _ _ (charsStartWith_self _))
  · unfold SDM.query
    rw [h2]
  · exact strIncludes_append_right _ _

/-- Counterexample to claim C9 as stated: against the initialized
`SequelizeDbManager` (whose registry contains exactly `pg-db`), a query on
"unknown-id" fails with "Database connection not found: unknown-id" — the
message contains the requested id but not the registered id `pg-db`, so it
does not contain the list of currently registered connection ids. -/
theorem sdm_query_notfound_message_lacks_id_list :
    (SDM.query sdmStateLocal "SELECT 1" "unknown-id" 1 (.ok []) (.ok ([], none))).1 =
      .error ⟨none, none, "Database connection not found: unknown-id"⟩ ∧
    akeys sdmStateLocal.connections = [LOCAL_DB_ID] ∧
    strIncludes "Database connection not found: unknown-id" "unknown-id" = true ∧
    strIncludes "Database connection not found: unknown-id" LOCAL_DB_ID = false := by
  exact ⟨by decide, by decide, by decide, by decide⟩

/-- Witness for claim C9 at a concrete input: the unregistered id
"unknown-id" against both initialized managers. -/
theorem notfound_error_message_witness :
    aget mdmStateLocal.connections "unknown-id" = none ∧
    aget sdmStateLocal.connections "unknown-id" = none ∧
    ((MDM.getClient mdmStateLocal "unknown-id" 1 (.ok ())).1 =
        .error ⟨none, none, MDM.notFoundMessage mdmStateLocal "unknown-id"⟩ ∧
      strIncludes (MDM.notFoundMessage mdmStateLocal "unknown-id") "unknown-id" = true ∧
      strIncludes (MDM.notFoundMessage mdmStateLocal "unknown-id")
        (String.intercalate ", " (akeys mdmStateLocal.connections)) = true ∧
      (SDM.query sdmStateLocal "SELECT 1" "unknown-id" 1 (.ok [])
          (.ok ([], none))).1 =
        .error ⟨none, none, "Database connection not found: " ++ "unknown-id"⟩ ∧
      strIncludes ("Database connection not found: " ++ "unknown-id") "unknown-id" = true) :=
  ⟨by decide, by decide,
   notfound_error_message_content mdmStateLocal sdmStateLocal "unknown-id" 1 (.ok ())
     (.ok []) (.ok ([], none)) (by decide) (by decide)⟩

/-- Claim C10: the outward-facing `GET /databases` listing exposes exactly
the fields `id`, `name`, `type`, `host`, `port`, `database`, `isLocal`,
`lastUsed` (the `DatabaseListing` record by construction) and never the
stored `password` or `username`: two session lists that agree on everything
except the credentials' username and password produce identical listings. -/
theorem listing_excludes_credentials_secrets :
    ∀ (l1 l2 : List DatabaseSession), List.Forall₂ sameExceptSecret l1 l2 →
      listDatabasesRoute l1 = listDatabasesRoute l2 := by
  intro l1
  induction l1 with
  | nil =>
      intro l2 h
      cases h
      rfl
  | cons a t ih =>
      intro l2 h
      cases h with
      | cons hab ht =>
          rename_i b t2
          have hv : toListing a = toListing b := by
            obtain ⟨h1, h2, h3, h4, h5, h6, h7, h8, h9, h10⟩ := hab
            unfold toListing
            rw [h1, h3, h4, h5, h6, h7, h8, h10]
          show toListing a :: listDatabasesRoute t = toListing b :: listDatabasesRoute t2
          rw [hv, ih t2 ht]

/-- Witness for claim C10 at a concrete input: two single-session registries
for the same target differing only in stored username and password yield
the same listing. -/
theorem listing_excludes_credentials_secrets_witness :
    List.Forall₂ sameExceptSecret [sessA] [sessB] ∧
    listDatabasesRoute [sessA] = listDatabasesRoute [sessB] :=
  have h : List.Forall₂ sameExceptSecret [sessA] [sessB] :=
    List.Forall₂.cons ⟨rfl, rfl, rfl, rfl, rfl, rfl, rfl, rfl, rfl, rfl⟩ List.Forall₂.nil
  ⟨h, listing_excludes_credentials_secrets [sessA] [sessB] h⟩
